import Mathlib

/-!
A shallow embedding of the core ray-tracing kernel of the repository
(judy2k/ray-tracer-challenge-2): affine tuples (src/src/space.rs), the dense
matrix engine (src/src/matrix.rs), rays and the intersection heap
(src/src/ray.rs), sphere intersection and normals (src/src/shape.rs), and
Phong lighting (src/src/materials.rs).

Modelling conventions:
* `f64` values are modelled as exact rationals (`ℚ`).
* The irrational primitives `f64::sqrt` and `f64::powf` are passed to the
  embedded functions as explicit parameters (`sqrtFn`, `powFn`); theorems
  hypothesise exactly the square-root properties they need and witnesses
  instantiate them with `Rat.sqrt` (exact on perfect squares) / an exact
  rational power.
* A Rust `panic!`/`unwrap` failure is modelled as `Option.none`.
* Division by zero, which in Rust silently yields a non-finite `f64`, is
  represented by Lean's totalised rational division (`q / 0 = 0`); theorems
  about degenerate divisions are phrased so that only the *presence or
  absence of a guard* matters, not the junk value produced.
-/

namespace RT

/-- Constant `EPSILON` from src/lib.rs: `pub const EPSILON: f64 = 0.00001`. -/
def EPSILON : ℚ := 1 / 100000

/-- Function `approx_equal` from src/lib.rs: `(a - b).abs() < EPSILON`. -/
def approx_equal (a b : ℚ) : Bool := decide (|a - b| < EPSILON)

/-- Struct `Tuple` from src/src/space.rs: four `f64` components `(x, y, z, w)`. -/
structure Tuple where
  x : ℚ
  y : ℚ
  z : ℚ
  w : ℚ
deriving DecidableEq, Repr

namespace Tuple

/-- Constructor `Tuple::new` from src/src/space.rs. -/
def new (x y z w : ℚ) : Tuple := ⟨x, y, z, w⟩

/-- Accessor `Tuple::get` from src/src/space.rs: component by index 0..3.  The source
has `todo!()` (a panic) for indices ≥ 4; that arm is totalised to 0 here and
is unreachable for the 4-column matrices of this kernel. -/
def get (t : Tuple) : ℕ → ℚ
  | 0 => t.x
  | 1 => t.y
  | 2 => t.z
  | 3 => t.w
  | _ + 4 => 0

/-- Operator `impl Add for Tuple` from src/src/space.rs: componentwise addition. -/
def add (a b : Tuple) : Tuple := ⟨a.x + b.x, a.y + b.y, a.z + b.z, a.w + b.w⟩

/-- Operator `impl Sub for Tuple` from src/src/space.rs: componentwise subtraction. -/
def sub (a b : Tuple) : Tuple := ⟨a.x - b.x, a.y - b.y, a.z - b.z, a.w - b.w⟩

/-- Operator `impl Neg for Tuple` from src/src/space.rs: componentwise negation. -/
def neg (a : Tuple) : Tuple := ⟨-a.x, -a.y, -a.z, -a.w⟩

/-- Operator `impl Mul<f64> for Tuple` from src/src/space.rs: scale all four
components, `w` included. -/
def mulScalar (a : Tuple) (s : ℚ) : Tuple := ⟨a.x * s, a.y * s, a.z * s, a.w * s⟩

/-- Operator `impl Div<f64> for Tuple` from src/src/space.rs: divide all four
components, `w` included. -/
def divScalar (a : Tuple) (s : ℚ) : Tuple := ⟨a.x / s, a.y / s, a.z / s, a.w / s⟩

/-- Operator `impl PartialEq for Tuple` from src/src/space.rs: componentwise
`approx_equal`. -/
def approxEq (a b : Tuple) : Bool :=
  approx_equal a.x b.x && approx_equal a.y b.y && approx_equal a.z b.z &&
    approx_equal a.w b.w

end Tuple

/-- Struct `Point` from src/src/space.rs: a newtype over `Tuple`. -/
structure Point where
  toTuple : Tuple
deriving DecidableEq, Repr

/-- Struct `Vector` from src/src/space.rs: a newtype over `Tuple`. -/
structure Vector where
  toTuple : Tuple
deriving DecidableEq, Repr

namespace Point

/-- Constructor `Point::new` from src/src/space.rs: `w = 1.0`. -/
def new (x y z : ℚ) : Point := ⟨Tuple.new x y z 1⟩

/-- Conversion `From<Tuple> for Point` from src/src/space.rs: wraps the tuple unchanged
(`w` is kept as-is). -/
def ofTuple (t : Tuple) : Point := ⟨t⟩

/-- Method `Point::subtract_origin` from src/src/space.rs: copy the tuple and set
`w` to 0. -/
def subtract_origin (p : Point) : Vector := ⟨{ p.toTuple with w := 0 }⟩

/-- Operator `impl Sub<Point> for Point` from src/src/space.rs: tuple subtraction,
wrapped as a `Vector` (without forcing `w`). -/
def subPoint (a b : Point) : Vector := ⟨a.toTuple.sub b.toTuple⟩

/-- Operator `impl Add<Vector> for Point` from src/src/space.rs. -/
def addVector (a : Point) (v : Vector) : Point := ⟨a.toTuple.add v.toTuple⟩

/-- Operator `impl Sub<Vector> for Point` from src/src/space.rs. -/
def subVector (a : Point) (v : Vector) : Point := ⟨a.toTuple.sub v.toTuple⟩

end Point

namespace Vector

/-- Constructor `Vector::new` from src/src/space.rs: `w = 0.0`. -/
def new (x y z : ℚ) : Vector := ⟨Tuple.new x y z 0⟩

/-- Conversion `From<Tuple> for Vector` from src/src/space.rs: wraps the tuple after
forcing `w = 0`. -/
def ofTuple (t : Tuple) : Vector := ⟨{ t with w := 0 }⟩

/-- Operator `impl Add<Vector> for Vector` from src/src/space.rs. -/
def add (a b : Vector) : Vector := ⟨a.toTuple.add b.toTuple⟩

/-- Operator `impl Sub<Vector> for Vector` from src/src/space.rs. -/
def sub (a b : Vector) : Vector := ⟨a.toTuple.sub b.toTuple⟩

/-- Operator `impl Mul<f64> for Vector` from src/src/space.rs. -/
def mulScalar (a : Vector) (s : ℚ) : Vector := ⟨a.toTuple.mulScalar s⟩

/-- Method `Vector::magnitude` from src/src/space.rs: square root of the sum of the
squares of all four components (`powf(2.)` modelled as exact squaring). -/
def magnitude (sqrtFn : ℚ → ℚ) (v : Vector) : ℚ :=
  sqrtFn (v.toTuple.x * v.toTuple.x + v.toTuple.y * v.toTuple.y +
    v.toTuple.z * v.toTuple.z + v.toTuple.w * v.toTuple.w)

/-- Method `Vector::normalize` from src/src/space.rs: divide `x`, `y`, `z` by the
magnitude and rebuild with `Vector::new`.  There is no guard for magnitude 0:
the divisions are performed unconditionally. -/
def normalize (sqrtFn : ℚ → ℚ) (v : Vector) : Vector :=
  let m := magnitude sqrtFn v
  Vector.new (v.toTuple.x / m) (v.toTuple.y / m) (v.toTuple.z / m)

/-- Method `Vector::dot` from src/src/space.rs, including the source's trailing
`+ self.w + other.w` term (in place of a `w * w` product). -/
def dot (a b : Vector) : ℚ :=
  a.toTuple.x * b.toTuple.x + a.toTuple.y * b.toTuple.y +
    a.toTuple.z * b.toTuple.z + a.toTuple.w + b.toTuple.w

/-- Method `Vector::cross` from src/src/space.rs. -/
def cross (a b : Vector) : Vector :=
  Vector.new
    (a.toTuple.y * b.toTuple.z - a.toTuple.z * b.toTuple.y)
    (a.toTuple.z * b.toTuple.x - a.toTuple.x * b.toTuple.z)
    (a.toTuple.x * b.toTuple.y - a.toTuple.y * b.toTuple.x)

/-- Method `Vector::reflect` from src/src/space.rs:
`*self - normal * 2.0 * self.dot(*normal)`. -/
def reflect (v normal : Vector) : Vector :=
  v.sub ((normal.mulScalar 2).mulScalar (v.dot normal))

end Vector

/-- Struct `Matrix` from src/src/matrix.rs: dense row-major storage with
explicit `rows`/`cols` and a flat backing vector. -/
structure Matrix where
  rows : ℕ
  cols : ℕ
  values : List ℚ
deriving DecidableEq, Repr

namespace Matrix

/-- Constructor `Matrix::new` from src/src/matrix.rs: zero-filled backing
vector of length `rows * cols`. -/
def new (rows cols : ℕ) : Matrix := ⟨rows, cols, List.replicate (rows * cols) 0⟩

/-- Constructor `Matrix::from_values` from src/src/matrix.rs: adopts the
given backing vector unchecked. -/
def from_values (rows cols : ℕ) (values : List ℚ) : Matrix := ⟨rows, cols, values⟩

/-- Method `Matrix::index` from src/src/matrix.rs: flattened index
`row * self.cols + col`. -/
def index (m : Matrix) (row col : ℕ) : ℕ := row * m.cols + col

/-- Method `Matrix::get` from src/src/matrix.rs, with its failure made
explicit: `self.values.get(self.index(row, col))`, `none` standing for the
`unwrap` panic. -/
def get? (m : Matrix) (row col : ℕ) : Option ℚ := m.values.get? (m.index row col)

/-- Method `Matrix::set` from src/src/matrix.rs, with its failure made
explicit: writes through the flattened index, `none` standing for the
out-of-bounds panic. -/
def set? (m : Matrix) (row col : ℕ) (v : ℚ) : Option Matrix :=
  if m.index row col < m.values.length then
    some { m with values := m.values.set (m.index row col) v }
  else none

/-- Total version of `Matrix::get` used by the kernel's internal loops, whose
indices are always in range (the out-of-range panic is totalised to 0). -/
def getD (m : Matrix) (row col : ℕ) : ℚ := m.values.getD (m.index row col) 0

/-- Total version of `Matrix::set` used by the kernel's internal loops, whose
indices are always in range (`List.set` is a no-op out of range where the
source would panic). -/
def setD (m : Matrix) (row col : ℕ) (v : ℚ) : Matrix :=
  { m with values := m.values.set (m.index row col) v }

/-- Constant `identity_matrix` from src/src/matrix.rs (the process-wide 4×4
identity). -/
def identity_matrix : Matrix :=
  from_values 4 4 [1, 0, 0, 0, 0, 1, 0, 0, 0, 0, 1, 0, 0, 0, 0, 1]

/-- Method `Matrix::transpose` from src/src/matrix.rs: a `cols × rows` result
with `result[col][row] = self[row][col]`; the double `set` loop is translated
as a direct per-flat-index construction. -/
def transpose (m : Matrix) : Matrix :=
  ⟨m.cols, m.rows,
    (List.range (m.cols * m.rows)).map (fun i => m.getD (i % m.rows) (i / m.rows))⟩

/-- Method `Matrix::submatrix` from src/src/matrix.rs: drop `row` and `col`;
the double `set` loop is translated as a direct per-flat-index
construction. -/
def submatrix (m : Matrix) (row col : ℕ) : Matrix :=
  ⟨m.rows - 1, m.cols - 1,
    (List.range ((m.rows - 1) * (m.cols - 1))).map (fun i =>
      let or := i / (m.cols - 1)
      let oc := i % (m.cols - 1)
      m.getD (if or < row then or else or + 1) (if oc < col then oc else oc + 1))⟩

/-- Method `Matrix::determinant` from src/src/matrix.rs: the 2×2 base case,
otherwise cofactor expansion along row 0 (each cofactor being the submatrix
determinant times `(-1)^(row+col)`, here inlined).  The source's recursion
into strictly smaller submatrices is driven by a fuel argument equal to the
row count at the top-level call, which the recursion never exhausts. -/
def determinantAux : ℕ → Matrix → ℚ
  | 0, m =>
    if m.rows = 2 ∧ m.cols = 2 then
      m.getD 0 0 * m.getD 1 1 - m.getD 0 1 * m.getD 1 0
    else 0
  | fuel + 1, m =>
    if m.rows = 2 ∧ m.cols = 2 then
      m.getD 0 0 * m.getD 1 1 - m.getD 0 1 * m.getD 1 0
    else
      ((List.range m.cols).map (fun col =>
        m.getD 0 col *
          (determinantAux fuel (m.submatrix 0 col) *
            (if (0 + col) % 2 = 1 then (-1 : ℚ) else 1)))).sum

/-- Method `Matrix::determinant` from src/src/matrix.rs (entry point). -/
def determinant (m : Matrix) : ℚ := determinantAux m.rows m

/-- Method `Matrix::minor` from src/src/matrix.rs: determinant of the
submatrix. -/
def minor (m : Matrix) (row col : ℕ) : ℚ := (m.submatrix row col).determinant

/-- Method `Matrix::cofactor` from src/src/matrix.rs: the minor times
`-1` when `(row + col)` is odd. -/
def cofactor (m : Matrix) (row col : ℕ) : ℚ :=
  m.minor row col * (if (row + col) % 2 = 1 then (-1 : ℚ) else 1)

/-- Method `Matrix::invertible` from src/src/matrix.rs: exact
`determinant() != 0.0` test, no epsilon. -/
def invertible (m : Matrix) : Bool := decide (m.determinant ≠ 0)

/-- Method `Matrix::inverse` from src/src/matrix.rs: `none` when not
invertible, otherwise the `cols × rows` matrix with
`result[col][row] = cofactor(row, col) / determinant` (the double `set` loop
is translated as a direct per-flat-index construction). -/
def inverse (m : Matrix) : Option Matrix :=
  if m.invertible then
    some ⟨m.cols, m.rows,
      (List.range (m.cols * m.rows)).map (fun i =>
        m.cofactor (i % m.rows) (i / m.rows) / m.determinant)⟩
  else none

/-- Constructor `Matrix::translation` from src/src/matrix.rs: a clone of the
identity with the translation column set. -/
def translation (x y z : ℚ) : Matrix :=
  ((identity_matrix.setD 0 3 x).setD 1 3 y).setD 2 3 z

/-- Constructor `Matrix::scaling` from src/src/matrix.rs: a clone of the
identity with the diagonal set. -/
def scaling (x y z : ℚ) : Matrix :=
  ((identity_matrix.setD 0 0 x).setD 1 1 y).setD 2 2 z

/-- Constructor `Matrix::shearing` from src/src/matrix.rs. -/
def shearing (xy xz yx yz zx zy : ℚ) : Matrix :=
  from_values 4 4 [1, xy, xz, 0, yx, 1, yz, 0, zx, zy, 1, 0, 0, 0, 0, 1]

/-- Operator `impl Mul for &Matrix` from src/src/matrix.rs: the row×column
tally loop, translated as a direct per-flat-index construction.  The inner
sum runs over `self.rows` exactly as in the source; the source writes cell
`(row, col)` at flat position `self.index(row, col)` (i.e. using
`self.cols`), which for the square matrices of this kernel coincides with
the `row * rhs.cols + col` layout built here. -/
def matMul (a b : Matrix) : Matrix :=
  let tally := fun (row col : ℕ) =>
    ((List.range a.rows).map (fun i => a.getD row i * b.getD i col)).sum
  from_values a.rows b.cols
    ((List.range (a.rows * b.cols)).map (fun idx => tally (idx / b.cols) (idx % b.cols)))

/-- Operator `impl Mul<&Tuple> for &Matrix` from src/src/matrix.rs: rows
`0..4` of the matrix dotted with the tuple's components. -/
def mulTuple (m : Matrix) (t : Tuple) : Tuple :=
  let result := (List.range 4).map (fun row =>
    ((List.range m.cols).map (fun col => m.getD row col * t.get col)).sum)
  Tuple.new (result.getD 0 0) (result.getD 1 0) (result.getD 2 0) (result.getD 3 0)

/-- Operator `impl Mul<Point> for &Matrix` from src/src/matrix.rs: tuple
multiplication followed by `From<Tuple> for Point` (keeps `w`). -/
def mulPoint (m : Matrix) (p : Point) : Point := Point.ofTuple (m.mulTuple p.toTuple)

/-- Operator `impl Mul<Vector> for &Matrix` from src/src/matrix.rs: tuple
multiplication followed by `From<Tuple> for Vector` (forces `w = 0`). -/
def mulVector (m : Matrix) (v : Vector) : Vector := Vector.ofTuple (m.mulTuple v.toTuple)

/-- Operator `impl PartialEq for Matrix` from src/src/matrix.rs: equal
dimensions and componentwise `approx_equal`. -/
def approxEq (a b : Matrix) : Bool :=
  if a.rows = b.rows ∧ a.cols = b.cols then
    (List.range a.rows).all (fun row =>
      (List.range a.cols).all (fun col =>
        approx_equal (a.getD row col) (b.getD row col)))
  else false

end Matrix

/-- Struct `Ray` from src/src/ray.rs. -/
structure Ray where
  origin : Point
  direction : Vector
deriving DecidableEq, Repr

namespace Ray

/-- Method `Ray::position` from src/src/ray.rs: `origin + direction * d`. -/
def position (r : Ray) (d : ℚ) : Point := r.origin.addVector (r.direction.mulScalar d)

/-- Method `Ray::transform` from src/src/ray.rs: the origin is mapped as a
raw tuple and rewrapped as a `Point` (keeping `w`), the direction as a
`Vector` (forcing `w = 0`). -/
def transform (r : Ray) (matrix : Matrix) : Ray :=
  ⟨Point.ofTuple (matrix.mulTuple r.origin.toTuple), matrix.mulVector r.direction⟩

end Ray

/-- Struct `Intersection` from src/src/ray.rs: a `t` value and a reference to
the intersected shape.  The non-owning shape reference is modelled as an
opaque identifier. -/
structure Intersection where
  t : ℚ
  shape : ℕ
deriving DecidableEq, Repr

/-- Ordering `impl PartialOrd/Ord for Intersection` from src/src/ray.rs:
`self.t.partial_cmp(&other.t)` with `Greater` and `Less` swapped, so the
max-heap built on it behaves as a min-heap on `t`. -/
def Intersection.cmp (a b : Intersection) : Ordering :=
  if a.t < b.t then .gt else if b.t < a.t then .lt else .eq

/-- Swap of two in-range positions of a list (helper for the heap's sift-up;
out-of-range positions leave the list unchanged and never occur). -/
def listSwap (l : List Intersection) (i j : ℕ) : List Intersection :=
  match l.get? i, l.get? j with
  | some a, some b => (l.set i b).set j a
  | _, _ => l

/-- Sift-up loop of Rust's `BinaryHeap::push` (std `sift_up`, reached through
`Intersections::add` in src/src/ray.rs): starting from the appended position,
swap the new element with its parent while it is strictly greater in the
heap's `Intersection` ordering (i.e. while its `t` is strictly smaller than
the parent's). -/
def siftUp (l : List Intersection) (pos : ℕ) : List Intersection :=
  if _h : pos = 0 then l
  else
    let parent := (pos - 1) / 2
    match l.get? parent, l.get? pos with
    | some p, some e =>
        if Intersection.cmp p e = .lt then siftUp (listSwap l parent pos) parent else l
    | _, _ => l
termination_by pos
decreasing_by omega

/-- Struct `Intersections` from src/src/ray.rs: `items` is the backing vector
of the `BinaryHeap<Intersection>` in array order. -/
structure Intersections where
  items : List Intersection
deriving DecidableEq, Repr

namespace Intersections

/-- Constructor `Intersections::new` from src/src/ray.rs. -/
def new : Intersections := ⟨[]⟩

/-- Method `Intersections::add` from src/src/ray.rs: `BinaryHeap::push`, i.e.
append at the end of the backing vector and sift up. -/
def add (xs : Intersections) (i : Intersection) : Intersections :=
  ⟨siftUp (xs.items ++ [i]) xs.items.length⟩

/-- Method `Intersections::hit` from src/src/ray.rs: scan `items.iter()` —
which traverses the heap's backing vector in array order — and return the
first intersection whose `t` is sign-positive (`0 ≤ t` in the rational
model). -/
def hit (xs : Intersections) : Option Intersection :=
  xs.items.find? (fun i => decide (0 ≤ i.t))

/-- Method `Intersections::len` from src/src/ray.rs. -/
def len (xs : Intersections) : ℕ := xs.items.length

/-- Iteration order of `impl IntoIterator for Intersections` from
src/src/ray.rs: `BinaryHeap::into_iter` yields the backing vector in array
order (Rust documents this order as arbitrary). -/
def toList (xs : Intersections) : List Intersection := xs.items

end Intersections

/-- Struct `Color` from src/src/color.rs. -/
structure Color where
  r : ℚ
  g : ℚ
  b : ℚ
deriving DecidableEq, Repr

namespace Color

/-- Constructor `Color::new` from src/src/color.rs. -/
def new (r g b : ℚ) : Color := ⟨r, g, b⟩

/-- Operator `impl Add for Color` from src/src/color.rs. -/
def add (a c : Color) : Color := ⟨a.r + c.r, a.g + c.g, a.b + c.b⟩

/-- Operator `impl Mul<f64> for Color` from src/src/color.rs. -/
def mulScalar (a : Color) (s : ℚ) : Color := ⟨a.r * s, a.g * s, a.b * s⟩

/-- Operator `impl Mul for Color` from src/src/color.rs: componentwise
product. -/
def mulColor (a c : Color) : Color := ⟨a.r * c.r, a.g * c.g, a.b * c.b⟩

/-- Operator `impl PartialEq for Color` from src/src/color.rs: componentwise
`approx_equal`. -/
def approxEq (a c : Color) : Bool :=
  approx_equal a.r c.r && approx_equal a.g c.g && approx_equal a.b c.b

end Color

/-- Struct `PointLight` from src/src/lighting.rs. -/
structure PointLight where
  position : Point
  intensity : Color
deriving DecidableEq, Repr

/-- Struct `Material` from src/src/materials.rs. -/
structure Material where
  color : Color
  ambient : ℚ
  diffuse : ℚ
  specular : ℚ
  shininess : ℚ
deriving DecidableEq, Repr

namespace Material

/-- Constructor `Material::new` from src/src/materials.rs: the fixed Phong
preset. -/
def new : Material := ⟨Color.new 1 1 1, 1/10, 9/10, 9/10, 200⟩

/-- Method `Material::lighting` from src/src/materials.rs, parameterised by
the `f64::sqrt` model (used inside `normalize`) and the `f64::powf` model
(used for `reflect_dot_eye.powf(self.shininess)`). -/
def lighting (sqrtFn : ℚ → ℚ) (powFn : ℚ → ℚ → ℚ) (m : Material)
    (light : PointLight) (position : Point) (eyev normalv : Vector) : Color :=
  let black := Color.new 0 0 0
  let effective_color := m.color.mulColor light.intensity
  let lightv := (light.position.subPoint position).normalize sqrtFn
  let ambient := effective_color.mulScalar m.ambient
  let light_dot_normal := lightv.dot normalv
  let ds :=
    if light_dot_normal < 0 then (black, black)
    else
      let diffuse := (effective_color.mulScalar m.diffuse).mulScalar light_dot_normal
      let reflectv := (lightv.mulScalar (-1)).reflect normalv
      let reflect_dot_eye := reflectv.dot eyev
      if reflect_dot_eye ≤ 0 then (diffuse, black)
      else
        let factor := powFn reflect_dot_eye m.shininess
        (diffuse, (light.intensity.mulScalar m.specular).mulScalar factor)
  (ambient.add ds.1).add ds.2

end Material

/-- Struct `Sphere` from src/src/shape.rs: a transformation and a material
(the unit sphere itself is implicit). -/
structure Sphere where
  transformation : Matrix
  material : Material
deriving DecidableEq, Repr

namespace Sphere

/-- Constructor `Sphere::new` from src/src/shape.rs: identity transformation
and default material. -/
def new : Sphere := ⟨Matrix.identity_matrix, Material.new⟩

/-- Constructor `Sphere::with_transform` from src/src/shape.rs. -/
def with_transform (transformation : Matrix) : Sphere := ⟨transformation, Material.new⟩

end Sphere

/-- Intermediate `sphere_to_ray` of `Sphere::intersect` from src/src/shape.rs:
the object-space ray origin minus `Point::new(0., 0., 0.)`. -/
def sphereToRay (ray2 : Ray) : Vector := ray2.origin.subPoint (Point.new 0 0 0)

/-- Intermediate `a` of `Sphere::intersect` from src/src/shape.rs. -/
def sphereA (ray2 : Ray) : ℚ := ray2.direction.dot ray2.direction

/-- Intermediate `b` of `Sphere::intersect` from src/src/shape.rs. -/
def sphereB (ray2 : Ray) : ℚ := 2 * ray2.direction.dot (sphereToRay ray2)

/-- Intermediate `c` of `Sphere::intersect` from src/src/shape.rs. -/
def sphereC (ray2 : Ray) : ℚ := (sphereToRay ray2).dot (sphereToRay ray2) - 1

/-- Intermediate `discriminant` of `Sphere::intersect` from src/src/shape.rs:
`b * b - 4. * a * c` over the object-space ray. -/
def sphereDiscriminant (ray2 : Ray) : ℚ :=
  sphereB ray2 * sphereB ray2 - 4 * sphereA ray2 * sphereC ray2

/-- Root list of `Sphere::intersect` from src/src/shape.rs, over the
object-space ray: two roots when `discriminant >= 0.0`, else none. -/
def sphereRoots (sqrtFn : ℚ → ℚ) (ray2 : Ray) : List ℚ :=
  if 0 ≤ sphereDiscriminant ray2 then
    [(-sphereB ray2 - sqrtFn (sphereDiscriminant ray2)) / (2 * sphereA ray2),
     (-sphereB ray2 + sqrtFn (sphereDiscriminant ray2)) / (2 * sphereA ray2)]
  else []

namespace Sphere

/-- Method `Sphere::intersect` from src/src/shape.rs: transform the ray by
`self.transformation.inverse().unwrap()` (`none` models the unwrap panic on a
singular transformation) and solve the unit-sphere quadratic. -/
def intersect (sqrtFn : ℚ → ℚ) (s : Sphere) (ray : Ray) : Option (List ℚ) :=
  s.transformation.inverse.map (fun inv => sphereRoots sqrtFn (ray.transform inv))

/-- Method `Sphere::normal_at` from src/src/shape.rs: object-space point via
the inverse transform, `subtract_origin`, back through the transposed
inverse as a `Vector` (which forces `w = 0`), then `normalize`.  `none`
models the unwrap panic on a singular transformation. -/
def normal_at (sqrtFn : ℚ → ℚ) (s : Sphere) (p : Point) : Option Vector :=
  s.transformation.inverse.map (fun it =>
    (it.transpose.mulVector (it.mulPoint p).subtract_origin).normalize sqrtFn)

end Sphere

/-- Model of `f64::powf` used by witnesses: exact exponentiation by the
numerator of the exponent, faithful for the kernel's only use
(`shininess = 200.0`, a non-negative integer). -/
def powQ (base exponent : ℚ) : ℚ := base ^ exponent.num.toNat

/-- Modelled from the spec (for claim C4): "`normalize()` … fails with a
degenerate-vector condition when magnitude is 0".  A guarded normalize used
only for comparison against the unguarded source `Vector::normalize`. -/
def normalizeGuardedSpec (sqrtFn : ℚ → ℚ) (v : Vector) : Option Vector :=
  if Vector.magnitude sqrtFn v = 0 then none else some (v.normalize sqrtFn)

/-- Sum of the squares of all four components of a vector (the argument of
the square root in `Vector::magnitude`, so that
`Vector.magnitude sqrtFn v = sqrtFn (sumSq v)` holds definitionally). -/
def sumSq (v : Vector) : ℚ :=
  v.toTuple.x * v.toTuple.x + v.toTuple.y * v.toTuple.y +
    v.toTuple.z * v.toTuple.z + v.toTuple.w * v.toTuple.w

/-- Pre-normalization world normal of `Sphere::normal_at` from
src/src/shape.rs: the object-space normal pushed through the transposed
inverse (as a `Vector`, so `w` is forced to 0). -/
def normalPre (inv : Matrix) (p : Point) : Vector :=
  inv.transpose.mulVector (inv.mulPoint p).subtract_origin

/-- Spec-side normal computation following the spec words (for claim C7):
map the world point to object space via the inverse transform, subtract the
object-space origin as a point subtraction, zero the `w` component, map back
with the transpose of the inverse, and normalize. -/
def normalAtSpec (sqrtFn : ℚ → ℚ) (inv : Matrix) (p : Point) : Vector :=
  let op := inv.mulPoint p
  let onv := op.subPoint (Point.new 0 0 0)
  let onvZeroW : Vector := ⟨{ onv.toTuple with w := 0 }⟩
  (inv.transpose.mulVector onvZeroW).normalize sqrtFn

section InverseLemmas

variable (m00 m01 m02 m03 m10 m11 m12 m13 m20 m21 m22 m23 m30 m31 m32 m33 : ℚ)

/-- Raw cofactor-expansion form of the embedded 4×4 determinant
(the exact reduct of `Matrix.determinant` on an explicit matrix). -/
theorem det4_raw :
    (Matrix.from_values 4 4 [m00, m01, m02, m03, m10, m11, m12, m13, m20, m21, m22, m23, m30, m31, m32, m33]).determinant =
      m00 * ((m11 * ((m22 * m33 - m23 * m32) * 1) + (m12 * ((m21 * m33 - m23 * m31) * (-1)) + (m13 * ((m21 * m32 - m22 * m31) * 1) + 0))) * 1) + (m01 * ((m10 * ((m22 * m33 - m23 * m32) * 1) + (m12 * ((m20 * m33 - m23 * m30) * (-1)) + (m13 * ((m20 * m32 - m22 * m30) * 1) + 0))) * (-1)) + (m02 * ((m10 * ((m21 * m33 - m23 * m31) * 1) + (m11 * ((m20 * m33 - m23 * m30) * (-1)) + (m13 * ((m20 * m31 - m21 * m30) * 1) + 0))) * 1) + (m03 * ((m10 * ((m21 * m32 - m22 * m31) * 1) + (m11 * ((m20 * m32 - m22 * m30) * (-1)) + (m12 * ((m20 * m31 - m21 * m30) * 1) + 0))) * (-1)) + (0)))) := by
  with_unfolding_all rfl

/-- Raw form of `Matrix.cofactor` at (0, 0) on an explicit 4×4 matrix. -/
theorem cof4_raw_00 :
    (Matrix.from_values 4 4 [m00, m01, m02, m03, m10, m11, m12, m13, m20, m21, m22, m23, m30, m31, m32, m33]).cofactor 0 0 =
      (m11 * ((m22 * m33 - m23 * m32) * 1) + (m12 * ((m21 * m33 - m23 * m31) * (-1)) + (m13 * ((m21 * m32 - m22 * m31) * 1) + 0))) * 1 := by
  with_unfolding_all rfl

/-- Raw form of `Matrix.cofactor` at (0, 1) on an explicit 4×4 matrix. -/
theorem cof4_raw_01 :
    (Matrix.from_values 4 4 [m00, m01, m02, m03, m10, m11, m12, m13, m20, m21, m22, m23, m30, m31, m32, m33]).cofactor 0 1 =
      (m10 * ((m22 * m33 - m23 * m32) * 1) + (m12 * ((m20 * m33 - m23 * m30) * (-1)) + (m13 * ((m20 * m32 - m22 * m30) * 1) + 0))) * (-1) := by
  with_unfolding_all rfl

/-- Raw form of `Matrix.cofactor` at (0, 2) on an explicit 4×4 matrix. -/
theorem cof4_raw_02 :
    (Matrix.from_values 4 4 [m00, m01, m02, m03, m10, m11, m12, m13, m20, m21, m22, m23, m30, m31, m32, m33]).cofactor 0 2 =
      (m10 * ((m21 * m33 - m23 * m31) * 1) + (m11 * ((m20 * m33 - m23 * m30) * (-1)) + (m13 * ((m20 * m31 - m21 * m30) * 1) + 0))) * 1 := by
  with_unfolding_all rfl

/-- Raw form of `Matrix.cofactor` at (0, 3) on an explicit 4×4 matrix. -/
theorem cof4_raw_03 :
    (Matrix.from_values 4 4 [m00, m01, m02, m03, m10, m11, m12, m13, m20, m21, m22, m23, m30, m31, m32, m33]).cofactor 0 3 =
      (m10 * ((m21 * m32 - m22 * m31) * 1) + (m11 * ((m20 * m32 - m22 * m30) * (-1)) + (m12 * ((m20 * m31 - m21 * m30) * 1) + 0))) * (-1) := by
  with_unfolding_all rfl

/-- Raw form of `Matrix.cofactor` at (1, 0) on an explicit 4×4 matrix. -/
theorem cof4_raw_10 :
    (Matrix.from_values 4 4 [m00, m01, m02, m03, m10, m11, m12, m13, m20, m21, m22, m23, m30, m31, m32, m33]).cofactor 1 0 =
      (m01 * ((m22 * m33 - m23 * m32) * 1) + (m02 * ((m21 * m33 - m23 * m31) * (-1)) + (m03 * ((m21 * m32 - m22 * m31) * 1) + 0))) * (-1) := by
  with_unfolding_all rfl

/-- Raw form of `Matrix.cofactor` at (1, 1) on an explicit 4×4 matrix. -/
theorem cof4_raw_11 :
    (Matrix.from_values 4 4 [m00, m01, m02, m03, m10, m11, m12, m13, m20, m21, m22, m23, m30, m31, m32, m33]).cofactor 1 1 =
      (m00 * ((m22 * m33 - m23 * m32) * 1) + (m02 * ((m20 * m33 - m23 * m30) * (-1)) + (m03 * ((m20 * m32 - m22 * m30) * 1) + 0))) * 1 := by
  with_unfolding_all rfl

/-- Raw form of `Matrix.cofactor` at (1, 2) on an explicit 4×4 matrix. -/
theorem cof4_raw_12 :
    (Matrix.from_values 4 4 [m00, m01, m02, m03, m10, m11, m12, m13, m20, m21, m22, m23, m30, m31, m32, m33]).cofactor 1 2 =
      (m00 * ((m21 * m33 - m23 * m31) * 1) + (m01 * ((m20 * m33 - m23 * m30) * (-1)) + (m03 * ((m20 * m31 - m21 * m30) * 1) + 0))) * (-1) := by
  with_unfolding_all rfl

/-- Raw form of `Matrix.cofactor` at (1, 3) on an explicit 4×4 matrix. -/
theorem cof4_raw_13 :
    (Matrix.from_values 4 4 [m00, m01, m02, m03, m10, m11, m12, m13, m20, m21, m22, m23, m30, m31, m32, m33]).cofactor 1 3 =
      (m00 * ((m21 * m32 - m22 * m31) * 1) + (m01 * ((m20 * m32 - m22 * m30) * (-1)) + (m02 * ((m20 * m31 - m21 * m30) * 1) + 0))) * 1 := by
  with_unfolding_all rfl

/-- Raw form of `Matrix.cofactor` at (2, 0) on an explicit 4×4 matrix. -/
theorem cof4_raw_20 :
    (Matrix.from_values 4 4 [m00, m01, m02, m03, m10, m11, m12, m13, m20, m21, m22, m23, m30, m31, m32, m33]).cofactor 2 0 =
      (m01 * ((m12 * m33 - m13 * m32) * 1) + (m02 * ((m11 * m33 - m13 * m31) * (-1)) + (m03 * ((m11 * m32 - m12 * m31) * 1) + 0))) * 1 := by
  with_unfolding_all rfl

/-- Raw form of `Matrix.cofactor` at (2, 1) on an explicit 4×4 matrix. -/
theorem cof4_raw_21 :
    (Matrix.from_values 4 4 [m00, m01, m02, m03, m10, m11, m12, m13, m20, m21, m22, m23, m30, m31, m32, m33]).cofactor 2 1 =
      (m00 * ((m12 * m33 - m13 * m32) * 1) + (m02 * ((m10 * m33 - m13 * m30) * (-1)) + (m03 * ((m10 * m32 - m12 * m30) * 1) + 0))) * (-1) := by
  with_unfolding_all rfl

/-- Raw form of `Matrix.cofactor` at (2, 2) on an explicit 4×4 matrix. -/
theorem cof4_raw_22 :
    (Matrix.from_values 4 4 [m00, m01, m02, m03, m10, m11, m12, m13, m20, m21, m22, m23, m30, m31, m32, m33]).cofactor 2 2 =
      (m00 * ((m11 * m33 - m13 * m31) * 1) + (m01 * ((m10 * m33 - m13 * m30) * (-1)) + (m03 * ((m10 * m31 - m11 * m30) * 1) + 0))) * 1 := by
  with_unfolding_all rfl

/-- Raw form of `Matrix.cofactor` at (2, 3) on an explicit 4×4 matrix. -/
theorem cof4_raw_23 :
    (Matrix.from_values 4 4 [m00, m01, m02, m03, m10, m11, m12, m13, m20, m21, m22, m23, m30, m31, m32, m33]).cofactor 2 3 =
      (m00 * ((m11 * m32 - m12 * m31) * 1) + (m01 * ((m10 * m32 - m12 * m30) * (-1)) + (m02 * ((m10 * m31 - m11 * m30) * 1) + 0))) * (-1) := by
  with_unfolding_all rfl

/-- Raw form of `Matrix.cofactor` at (3, 0) on an explicit 4×4 matrix. -/
theorem cof4_raw_30 :
    (Matrix.from_values 4 4 [m00, m01, m02, m03, m10, m11, m12, m13, m20, m21, m22, m23, m30, m31, m32, m33]).cofactor 3 0 =
      (m01 * ((m12 * m23 - m13 * m22) * 1) + (m02 * ((m11 * m23 - m13 * m21) * (-1)) + (m03 * ((m11 * m22 - m12 * m21) * 1) + 0))) * (-1) := by
  with_unfolding_all rfl

/-- Raw form of `Matrix.cofactor` at (3, 1) on an explicit 4×4 matrix. -/
theorem cof4_raw_31 :
    (Matrix.from_values 4 4 [m00, m01, m02, m03, m10, m11, m12, m13, m20, m21, m22, m23, m30, m31, m32, m33]).cofactor 3 1 =
      (m00 * ((m12 * m23 - m13 * m22) * 1) + (m02 * ((m10 * m23 - m13 * m20) * (-1)) + (m03 * ((m10 * m22 - m12 * m20) * 1) + 0))) * 1 := by
  with_unfolding_all rfl

/-- Raw form of `Matrix.cofactor` at (3, 2) on an explicit 4×4 matrix. -/
theorem cof4_raw_32 :
    (Matrix.from_values 4 4 [m00, m01, m02, m03, m10, m11, m12, m13, m20, m21, m22, m23, m30, m31, m32, m33]).cofactor 3 2 =
      (m00 * ((m11 * m23 - m13 * m21) * 1) + (m01 * ((m10 * m23 - m13 * m20) * (-1)) + (m03 * ((m10 * m21 - m11 * m20) * 1) + 0))) * (-1) := by
  with_unfolding_all rfl

/-- Raw form of `Matrix.cofactor` at (3, 3) on an explicit 4×4 matrix. -/
theorem cof4_raw_33 :
    (Matrix.from_values 4 4 [m00, m01, m02, m03, m10, m11, m12, m13, m20, m21, m22, m23, m30, m31, m32, m33]).cofactor 3 3 =
      (m00 * ((m11 * m22 - m12 * m21) * 1) + (m01 * ((m10 * m22 - m12 * m20) * (-1)) + (m02 * ((m10 * m21 - m11 * m20) * 1) + 0))) * 1 := by
  with_unfolding_all rfl

end InverseLemmas

/-- Evaluation of the embedded matrix product on two explicit 4×4
matrices (the exact reduct of `Matrix.matMul`). -/
theorem mm4_eval (a00 a01 a02 a03 a10 a11 a12 a13 a20 a21 a22 a23 a30 a31 a32 a33 b00 b01 b02 b03 b10 b11 b12 b13 b20 b21 b22 b23 b30 b31 b32 b33 : ℚ) :
    (Matrix.from_values 4 4 [a00, a01, a02, a03, a10, a11, a12, a13, a20, a21, a22, a23, a30, a31, a32, a33]).matMul
      (Matrix.from_values 4 4 [b00, b01, b02, b03, b10, b11, b12, b13, b20, b21, b22, b23, b30, b31, b32, b33]) =
    Matrix.from_values 4 4
      [a00 * b00 + (a01 * b10 + (a02 * b20 + (a03 * b30 + (0)))),
       a00 * b01 + (a01 * b11 + (a02 * b21 + (a03 * b31 + (0)))),
       a00 * b02 + (a01 * b12 + (a02 * b22 + (a03 * b32 + (0)))),
       a00 * b03 + (a01 * b13 + (a02 * b23 + (a03 * b33 + (0)))),
       a10 * b00 + (a11 * b10 + (a12 * b20 + (a13 * b30 + (0)))),
       a10 * b01 + (a11 * b11 + (a12 * b21 + (a13 * b31 + (0)))),
       a10 * b02 + (a11 * b12 + (a12 * b22 + (a13 * b32 + (0)))),
       a10 * b03 + (a11 * b13 + (a12 * b23 + (a13 * b33 + (0)))),
       a20 * b00 + (a21 * b10 + (a22 * b20 + (a23 * b30 + (0)))),
       a20 * b01 + (a21 * b11 + (a22 * b21 + (a23 * b31 + (0)))),
       a20 * b02 + (a21 * b12 + (a22 * b22 + (a23 * b32 + (0)))),
       a20 * b03 + (a21 * b13 + (a22 * b23 + (a23 * b33 + (0)))),
       a30 * b00 + (a31 * b10 + (a32 * b20 + (a33 * b30 + (0)))),
       a30 * b01 + (a31 * b11 + (a32 * b21 + (a33 * b31 + (0)))),
       a30 * b02 + (a31 * b12 + (a32 * b22 + (a33 * b32 + (0)))),
       a30 * b03 + (a31 * b13 + (a32 * b23 + (a33 * b33 + (0))))] := by
  with_unfolding_all rfl

section InverseMul

set_option maxHeartbeats 3200000 in
/-- Product of the matrix built by `Matrix::inverse` (cofactor-transpose over
the determinant) with the original explicit 4×4 matrix: the identity. -/
theorem inv_mul4 (m00 m01 m02 m03 m10 m11 m12 m13 m20 m21 m22 m23 m30 m31 m32 m33 : ℚ)
    (hD : (Matrix.from_values 4 4 [m00, m01, m02, m03, m10, m11, m12, m13, m20, m21, m22, m23, m30, m31, m32, m33]).determinant ≠ 0) :
    (Matrix.from_values 4 4
      [(Matrix.from_values 4 4 [m00, m01, m02, m03, m10, m11, m12, m13, m20, m21, m22, m23, m30, m31, m32, m33]).cofactor 0 0 / (Matrix.from_values 4 4 [m00, m01, m02, m03, m10, m11, m12, m13, m20, m21, m22, m23, m30, m31, m32, m33]).determinant,
       (Matrix.from_values 4 4 [m00, m01, m02, m03, m10, m11, m12, m13, m20, m21, m22, m23, m30, m31, m32, m33]).cofactor 1 0 / (Matrix.from_values 4 4 [m00, m01, m02, m03, m10, m11, m12, m13, m20, m21, m22, m23, m30, m31, m32, m33]).determinant,
       (Matrix.from_values 4 4 [m00, m01, m02, m03, m10, m11, m12, m13, m20, m21, m22, m23, m30, m31, m32, m33]).cofactor 2 0 / (Matrix.from_values 4 4 [m00, m01, m02, m03, m10, m11, m12, m13, m20, m21, m22, m23, m30, m31, m32, m33]).determinant,
       (Matrix.from_values 4 4 [m00, m01, m02, m03, m10, m11, m12, m13, m20, m21, m22, m23, m30, m31, m32, m33]).cofactor 3 0 / (Matrix.from_values 4 4 [m00, m01, m02, m03, m10, m11, m12, m13, m20, m21, m22, m23, m30, m31, m32, m33]).determinant,
       (Matrix.from_values 4 4 [m00, m01, m02, m03, m10, m11, m12, m13, m20, m21, m22, m23, m30, m31, m32, m33]).cofactor 0 1 / (Matrix.from_values 4 4 [m00, m01, m02, m03, m10, m11, m12, m13, m20, m21, m22, m23, m30, m31, m32, m33]).determinant,
       (Matrix.from_values 4 4 [m00, m01, m02, m03, m10, m11, m12, m13, m20, m21, m22, m23, m30, m31, m32, m33]).cofactor 1 1 / (Matrix.from_values 4 4 [m00, m01, m02, m03, m10, m11, m12, m13, m20, m21, m22, m23, m30, m31, m32, m33]).determinant,
       (Matrix.from_values 4 4 [m00, m01, m02, m03, m10, m11, m12, m13, m20, m21, m22, m23, m30, m31, m32, m33]).cofactor 2 1 / (Matrix.from_values 4 4 [m00, m01, m02, m03, m10, m11, m12, m13, m20, m21, m22, m23, m30, m31, m32, m33]).determinant,
       (Matrix.from_values 4 4 [m00, m01, m02, m03, m10, m11, m12, m13, m20, m21, m22, m23, m30, m31, m32, m33]).cofactor 3 1 / (Matrix.from_values 4 4 [m00, m01, m02, m03, m10, m11, m12, m13, m20, m21, m22, m23, m30, m31, m32, m33]).determinant,
       (Matrix.from_values 4 4 [m00, m01, m02, m03, m10, m11, m12, m13, m20, m21, m22, m23, m30, m31, m32, m33]).cofactor 0 2 / (Matrix.from_values 4 4 [m00, m01, m02, m03, m10, m11, m12, m13, m20, m21, m22, m23, m30, m31, m32, m33]).determinant,
       (Matrix.from_values 4 4 [m00, m01, m02, m03, m10, m11, m12, m13, m20, m21, m22, m23, m30, m31, m32, m33]).cofactor 1 2 / (Matrix.from_values 4 4 [m00, m01, m02, m03, m10, m11, m12, m13, m20, m21, m22, m23, m30, m31, m32, m33]).determinant,
       (Matrix.from_values 4 4 [m00, m01, m02, m03, m10, m11, m12, m13, m20, m21, m22, m23, m30, m31, m32, m33]).cofactor 2 2 / (Matrix.from_values 4 4 [m00, m01, m02, m03, m10, m11, m12, m13, m20, m21, m22, m23, m30, m31, m32, m33]).determinant,
       (Matrix.from_values 4 4 [m00, m01, m02, m03, m10, m11, m12, m13, m20, m21, m22, m23, m30, m31, m32, m33]).cofactor 3 2 / (Matrix.from_values 4 4 [m00, m01, m02, m03, m10, m11, m12, m13, m20, m21, m22, m23, m30, m31, m32, m33]).determinant,
       (Matrix.from_values 4 4 [m00, m01, m02, m03, m10, m11, m12, m13, m20, m21, m22, m23, m30, m31, m32, m33]).cofactor 0 3 / (Matrix.from_values 4 4 [m00, m01, m02, m03, m10, m11, m12, m13, m20, m21, m22, m23, m30, m31, m32, m33]).determinant,
       (Matrix.from_values 4 4 [m00, m01, m02, m03, m10, m11, m12, m13, m20, m21, m22, m23, m30, m31, m32, m33]).cofactor 1 3 / (Matrix.from_values 4 4 [m00, m01, m02, m03, m10, m11, m12, m13, m20, m21, m22, m23, m30, m31, m32, m33]).determinant,
       (Matrix.from_values 4 4 [m00, m01, m02, m03, m10, m11, m12, m13, m20, m21, m22, m23, m30, m31, m32, m33]).cofactor 2 3 / (Matrix.from_values 4 4 [m00, m01, m02, m03, m10, m11, m12, m13, m20, m21, m22, m23, m30, m31, m32, m33]).determinant,
       (Matrix.from_values 4 4 [m00, m01, m02, m03, m10, m11, m12, m13, m20, m21, m22, m23, m30, m31, m32, m33]).cofactor 3 3 / (Matrix.from_values 4 4 [m00, m01, m02, m03, m10, m11, m12, m13, m20, m21, m22, m23, m30, m31, m32, m33]).determinant]).matMul
      (Matrix.from_values 4 4 [m00, m01, m02, m03, m10, m11, m12, m13, m20, m21, m22, m23, m30, m31, m32, m33]) = Matrix.identity_matrix := by
  rw [mm4_eval, cof4_raw_00, cof4_raw_01, cof4_raw_02, cof4_raw_03, cof4_raw_10, cof4_raw_11, cof4_raw_12, cof4_raw_13, cof4_raw_20, cof4_raw_21, cof4_raw_22, cof4_raw_23, cof4_raw_30, cof4_raw_31, cof4_raw_32, cof4_raw_33, det4_raw]
  rw [det4_raw] at hD
  simp only [Matrix.from_values, Matrix.identity_matrix, Matrix.mk.injEq, List.cons.injEq,
    and_true, true_and]
  refine ⟨?_, ?_, ?_, ?_, ?_, ?_, ?_, ?_, ?_, ?_, ?_, ?_, ?_, ?_, ?_, ?_⟩ <;>
    (simp only [add_zero, div_mul_eq_mul_div, div_add_div_same] at hD ⊢
     rw [div_eq_iff hD]
     ring)

end InverseMul

/-- C6: `inverse()` returns none exactly when the determinant is 0; for
every invertible 4×4 matrix the returned inverse `N` satisfies
`N * M ≈ identity` componentwise within epsilon 1e-5 (the embedded
`PartialEq for Matrix`), and each output cell of `N` is
`cofactor(col, row) / determinant`. -/
theorem c6_inverse_spec :
    (∀ m : Matrix, m.inverse = none ↔ m.determinant = 0) ∧
    (∀ m00 m01 m02 m03 m10 m11 m12 m13 m20 m21 m22 m23 m30 m31 m32 m33 : ℚ, ∀ N : Matrix,
      (Matrix.from_values 4 4 [m00, m01, m02, m03, m10, m11, m12, m13, m20, m21, m22, m23, m30, m31, m32, m33]).determinant ≠ 0 →
      (Matrix.from_values 4 4 [m00, m01, m02, m03, m10, m11, m12, m13, m20, m21, m22, m23, m30, m31, m32, m33]).inverse = some N →
        Matrix.approxEq (N.matMul (Matrix.from_values 4 4 [m00, m01, m02, m03, m10, m11, m12, m13, m20, m21, m22, m23, m30, m31, m32, m33])) Matrix.identity_matrix = true ∧
        (∀ r c : ℕ, r < 4 → c < 4 →
          N.getD r c = (Matrix.from_values 4 4 [m00, m01, m02, m03, m10, m11, m12, m13, m20, m21, m22, m23, m30, m31, m32, m33]).cofactor c r / (Matrix.from_values 4 4 [m00, m01, m02, m03, m10, m11, m12, m13, m20, m21, m22, m23, m30, m31, m32, m33]).determinant)) := by
  constructor
  · intro m
    by_cases h : m.determinant = 0 <;> simp [Matrix.inverse, Matrix.invertible, h]
  · intro m00 m01 m02 m03 m10 m11 m12 m13 m20 m21 m22 m23 m30 m31 m32 m33 N hD hN
    have hb : (Matrix.from_values 4 4 [m00, m01, m02, m03, m10, m11, m12, m13, m20, m21, m22, m23, m30, m31, m32, m33]).invertible = true := by
      simp [Matrix.invertible, hD]
    have hNe : (Matrix.from_values 4 4 [m00, m01, m02, m03, m10, m11, m12, m13, m20, m21, m22, m23, m30, m31, m32, m33]).inverse =
        some (Matrix.from_values 4 4
        [(Matrix.from_values 4 4 [m00, m01, m02, m03, m10, m11, m12, m13, m20, m21, m22, m23, m30, m31, m32, m33]).cofactor 0 0 / (Matrix.from_values 4 4 [m00, m01, m02, m03, m10, m11, m12, m13, m20, m21, m22, m23, m30, m31, m32, m33]).determinant,
         (Matrix.from_values 4 4 [m00, m01, m02, m03, m10, m11, m12, m13, m20, m21, m22, m23, m30, m31, m32, m33]).cofactor 1 0 / (Matrix.from_values 4 4 [m00, m01, m02, m03, m10, m11, m12, m13, m20, m21, m22, m23, m30, m31, m32, m33]).determinant,
         (Matrix.from_values 4 4 [m00, m01, m02, m03, m10, m11, m12, m13, m20, m21, m22, m23, m30, m31, m32, m33]).cofactor 2 0 / (Matrix.from_values 4 4 [m00, m01, m02, m03, m10, m11, m12, m13, m20, m21, m22, m23, m30, m31, m32, m33]).determinant,
         (Matrix.from_values 4 4 [m00, m01, m02, m03, m10, m11, m12, m13, m20, m21, m22, m23, m30, m31, m32, m33]).cofactor 3 0 / (Matrix.from_values 4 4 [m00, m01, m02, m03, m10, m11, m12, m13, m20, m21, m22, m23, m30, m31, m32, m33]).determinant,
         (Matrix.from_values 4 4 [m00, m01, m02, m03, m10, m11, m12, m13, m20, m21, m22, m23, m30, m31, m32, m33]).cofactor 0 1 / (Matrix.from_values 4 4 [m00, m01, m02, m03, m10, m11, m12, m13, m20, m21, m22, m23, m30, m31, m32, m33]).determinant,
         (Matrix.from_values 4 4 [m00, m01, m02, m03, m10, m11, m12, m13, m20, m21, m22, m23, m30, m31, m32, m33]).cofactor 1 1 / (Matrix.from_values 4 4 [m00, m01, m02, m03, m10, m11, m12, m13, m20, m21, m22, m23, m30, m31, m32, m33]).determinant,
         (Matrix.from_values 4 4 [m00, m01, m02, m03, m10, m11, m12, m13, m20, m21, m22, m23, m30, m31, m32, m33]).cofactor 2 1 / (Matrix.from_values 4 4 [m00, m01, m02, m03, m10, m11, m12, m13, m20, m21, m22, m23, m30, m31, m32, m33]).determinant,
         (Matrix.from_values 4 4 [m00, m01, m02, m03, m10, m11, m12, m13, m20, m21, m22, m23, m30, m31, m32, m33]).cofactor 3 1 / (Matrix.from_values 4 4 [m00, m01, m02, m03, m10, m11, m12, m13, m20, m21, m22, m23, m30, m31, m32, m33]).determinant,
         (Matrix.from_values 4 4 [m00, m01, m02, m03, m10, m11, m12, m13, m20, m21, m22, m23, m30, m31, m32, m33]).cofactor 0 2 / (Matrix.from_values 4 4 [m00, m01, m02, m03, m10, m11, m12, m13, m20, m21, m22, m23, m30, m31, m32, m33]).determinant,
         (Matrix.from_values 4 4 [m00, m01, m02, m03, m10, m11, m12, m13, m20, m21, m22, m23, m30, m31, m32, m33]).cofactor 1 2 / (Matrix.from_values 4 4 [m00, m01, m02, m03, m10, m11, m12, m13, m20, m21, m22, m23, m30, m31, m32, m33]).determinant,
         (Matrix.from_values 4 4 [m00, m01, m02, m03, m10, m11, m12, m13, m20, m21, m22, m23, m30, m31, m32, m33]).cofactor 2 2 / (Matrix.from_values 4 4 [m00, m01, m02, m03, m10, m11, m12, m13, m20, m21, m22, m23, m30, m31, m32, m33]).determinant,
         (Matrix.from_values 4 4 [m00, m01, m02, m03, m10, m11, m12, m13, m20, m21, m22, m23, m30, m31, m32, m33]).cofactor 3 2 / (Matrix.from_values 4 4 [m00, m01, m02, m03, m10, m11, m12, m13, m20, m21, m22, m23, m30, m31, m32, m33]).determinant,
         (Matrix.from_values 4 4 [m00, m01, m02, m03, m10, m11, m12, m13, m20, m21, m22, m23, m30, m31, m32, m33]).cofactor 0 3 / (Matrix.from_values 4 4 [m00, m01, m02, m03, m10, m11, m12, m13, m20, m21, m22, m23, m30, m31, m32, m33]).determinant,
         (Matrix.from_values 4 4 [m00, m01, m02, m03, m10, m11, m12, m13, m20, m21, m22, m23, m30, m31, m32, m33]).cofactor 1 3 / (Matrix.from_values 4 4 [m00, m01, m02, m03, m10, m11, m12, m13, m20, m21, m22, m23, m30, m31, m32, m33]).determinant,
         (Matrix.from_values 4 4 [m00, m01, m02, m03, m10, m11, m12, m13, m20, m21, m22, m23, m30, m31, m32, m33]).cofactor 2 3 / (Matrix.from_values 4 4 [m00, m01, m02, m03, m10, m11, m12, m13, m20, m21, m22, m23, m30, m31, m32, m33]).determinant,
         (Matrix.from_values 4 4 [m00, m01, m02, m03, m10, m11, m12, m13, m20, m21, m22, m23, m30, m31, m32, m33]).cofactor 3 3 / (Matrix.from_values 4 4 [m00, m01, m02, m03, m10, m11, m12, m13, m20, m21, m22, m23, m30, m31, m32, m33]).determinant]) := by
      rw [Matrix.inverse, if_pos hb]
      with_unfolding_all rfl
    rw [hN] at hNe
    obtain rfl := Option.some.inj hNe
    refine ⟨?_, ?_⟩
    · rw [inv_mul4 m00 m01 m02 m03 m10 m11 m12 m13 m20 m21 m22 m23 m30 m31 m32 m33 hD]
      with_unfolding_all rfl
    · intro r c hr hc
      interval_cases r <;> interval_cases c <;> with_unfolding_all rfl

/-- Witness for C6 at the diagonal matrix diag(2, 3, 4, 5). -/
theorem c6_inverse_spec_witness :
    Matrix.approxEq
        ((Matrix.from_values 4 4 [1/2, 0, 0, 0, 0, 1/3, 0, 0, 0, 0, 1/4, 0, 0, 0, 0, 1/5]).matMul
          (Matrix.from_values 4 4 [2, 0, 0, 0, 0, 3, 0, 0, 0, 0, 4, 0, 0, 0, 0, 5]))
        Matrix.identity_matrix = true ∧
    (Matrix.from_values 4 4 [1/2, 0, 0, 0, 0, 1/3, 0, 0, 0, 0, 1/4, 0, 0, 0, 0, 1/5]).getD 0 1 =
      (Matrix.from_values 4 4 [2, 0, 0, 0, 0, 3, 0, 0, 0, 0, 4, 0, 0, 0, 0, 5]).cofactor 1 0 /
        (Matrix.from_values 4 4 [2, 0, 0, 0, 0, 3, 0, 0, 0, 0, 4, 0, 0, 0, 0, 5]).determinant := by
  have hD : (Matrix.from_values 4 4 [2, 0, 0, 0, 0, 3, 0, 0, 0, 0, 4, 0, 0, 0, 0, 5]).determinant ≠ 0 := by
    rw [show (Matrix.from_values 4 4 [2, 0, 0, 0, 0, 3, 0, 0, 0, 0, 4, 0, 0, 0, 0, 5]).determinant = 120 from by with_unfolding_all rfl]
    norm_num
  have hN : (Matrix.from_values 4 4 [2, 0, 0, 0, 0, 3, 0, 0, 0, 0, 4, 0, 0, 0, 0, 5]).inverse =
      some (Matrix.from_values 4 4 [1/2, 0, 0, 0, 0, 1/3, 0, 0, 0, 0, 1/4, 0, 0, 0, 0, 1/5]) := by
    with_unfolding_all rfl
  have h := c6_inverse_spec.2 2 0 0 0 0 3 0 0 0 0 4 0 0 0 0 5
    (Matrix.from_values 4 4 [1/2, 0, 0, 0, 0, 1/3, 0, 0, 0, 0, 1/4, 0, 0, 0, 0, 1/5]) hD hN
  exact ⟨h.1, h.2 0 1 (by norm_num) (by norm_num)⟩


/-- C1 (code evaluation at the failing input): over the add sequence with
t-values −3, 7, 5 the heap's backing vector is [−3, 7, 5] and `hit()` —
which scans that vector in array order — returns the record with t = 7,
although the record with t = 5 is present, non-negative and smaller; over
the spec's example sequence 5, 7, −3, 2 the backing vector happens to place
2 before the other non-negative records, so `hit()` does return t = 2. -/
theorem c1_hit_not_lowest_nonneg :
    (((Intersections.new.add ⟨-3, 0⟩).add ⟨7, 1⟩).add ⟨5, 2⟩).items =
      [⟨-3, 0⟩, ⟨7, 1⟩, ⟨5, 2⟩] ∧
    (((Intersections.new.add ⟨-3, 0⟩).add ⟨7, 1⟩).add ⟨5, 2⟩).hit = some ⟨7, 1⟩ ∧
    (0 : ℚ) ≤ 5 ∧ (5 : ℚ) < 7 ∧
    ((((Intersections.new.add ⟨5, 0⟩).add ⟨7, 1⟩).add ⟨-3, 2⟩).add ⟨2, 3⟩).hit =
      some ⟨2, 3⟩ := by
  refine ⟨by with_unfolding_all rfl, by with_unfolding_all rfl, by norm_num, by norm_num,
    by with_unfolding_all rfl⟩

/-- C2 (code evaluation at the failing input): after adds with t-values
1, 3, 2 the collection iterates its heap backing vector as [1, 3, 2], which
is not ascending by t. -/
theorem c2_iteration_not_ascending :
    ((((Intersections.new.add ⟨1, 0⟩).add ⟨3, 1⟩).add ⟨2, 2⟩).toList.map Intersection.t =
      [1, 3, 2]) ∧
    ¬ List.Sorted (· ≤ ·)
      ((((Intersections.new.add ⟨1, 0⟩).add ⟨3, 1⟩).add ⟨2, 2⟩).toList.map Intersection.t) := by
  have h : (((Intersections.new.add ⟨1, 0⟩).add ⟨3, 1⟩).add ⟨2, 2⟩).toList.map Intersection.t =
      [(1 : ℚ), 3, 2] := by with_unfolding_all rfl
  refine ⟨h, ?_⟩
  rw [h]
  norm_num [List.sorted_cons]

/-- C4 counterexample: on the zero vector the source `normalize` does not
signal any degenerate-vector condition — it returns an ordinary `Vector`
(the all-zero vector under the rational totalisation of the non-finite
`0.0 / 0.0` divisions), where the spec-modelled guarded version fails. -/
theorem c4_counterexample :
    Vector.normalize Rat.sqrt (Vector.new 0 0 0) = Vector.new 0 0 0 ∧
    normalizeGuardedSpec Rat.sqrt (Vector.new 0 0 0) = none := by
  constructor <;> with_unfolding_all rfl

/-- C4 amended: `normalize` divides each component by the magnitude with no
guard anywhere; on the zero-magnitude vector it silently returns the junk
quotients of the division by zero (zero in the rational model of the
non-finite f64 result) instead of failing. -/
theorem c4_normalize_unguarded (sqrtFn : ℚ → ℚ) (v : Vector) (h0 : sqrtFn 0 = 0) :
    v.normalize sqrtFn =
      Vector.new (v.toTuple.x / Vector.magnitude sqrtFn v)
        (v.toTuple.y / Vector.magnitude sqrtFn v)
        (v.toTuple.z / Vector.magnitude sqrtFn v) ∧
    Vector.normalize sqrtFn (Vector.new 0 0 0) = Vector.new 0 0 0 := by
  refine ⟨rfl, ?_⟩
  simp [Vector.normalize, Vector.magnitude, Vector.new, Tuple.new, h0]

/-- Witness for C4 at the vector (3, 0, 0) with the exact rational square
root. -/
theorem c4_normalize_unguarded_witness :
    Rat.sqrt 0 = 0 ∧
    ((Vector.new 3 0 0).normalize Rat.sqrt =
      Vector.new ((Vector.new 3 0 0).toTuple.x / Vector.magnitude Rat.sqrt (Vector.new 3 0 0))
        ((Vector.new 3 0 0).toTuple.y / Vector.magnitude Rat.sqrt (Vector.new 3 0 0))
        ((Vector.new 3 0 0).toTuple.z / Vector.magnitude Rat.sqrt (Vector.new 3 0 0)) ∧
      Vector.normalize Rat.sqrt (Vector.new 0 0 0) = Vector.new 0 0 0) :=
  ⟨by with_unfolding_all rfl,
    c4_normalize_unguarded Rat.sqrt (Vector.new 3 0 0) (by with_unfolding_all rfl)⟩

/-- C5 counterexample: on a 4×4 matrix the access `get(0, 5)` has its column
out of range for the dimensions, yet it does not fail — it silently reads
the backing cell of `(1, 1)`; likewise `set(0, 5, 99)` silently overwrites
the backing cell of `(1, 1)`. -/
theorem c5_counterexample :
    (Matrix.from_values 4 4
      [1, 2, 3, 4, 5, 6, 7, 8, 9, 10, 11, 12, 13, 14, 15, 16]).cols = 4 ∧
    (Matrix.from_values 4 4
      [1, 2, 3, 4, 5, 6, 7, 8, 9, 10, 11, 12, 13, 14, 15, 16]).get? 0 5 = some 6 ∧
    (Matrix.from_values 4 4
      [1, 2, 3, 4, 5, 6, 7, 8, 9, 10, 11, 12, 13, 14, 15, 16]).get? 1 1 = some 6 ∧
    (Matrix.from_values 4 4
      [1, 2, 3, 4, 5, 6, 7, 8, 9, 10, 11, 12, 13, 14, 15, 16]).set? 0 5 99 =
      some (Matrix.from_values 4 4
        [1, 2, 3, 4, 5, 99, 7, 8, 9, 10, 11, 12, 13, 14, 15, 16]) := by
  refine ⟨rfl, ?_, ?_, ?_⟩ <;> with_unfolding_all rfl

/-- C5 amended: bounds checking is only on the flattened index
`row * cols + col` against the backing vector's length — `get`/`set` fail
exactly when that flat index falls outside the backing vector, and an
in-range flat index (even with an out-of-range column) silently aliases the
backing cell at `(flat / cols, flat % cols)`. -/
theorem c5_flat_index_bounds (m : Matrix) (row col : ℕ) (v : ℚ)
    (hlen : m.index row col < m.values.length) (hc : 0 < m.cols) :
    (∀ r c, m.get? r c = none ↔ m.values.length ≤ m.index r c) ∧
    (∀ r c, m.set? r c v = none ↔ m.values.length ≤ m.index r c) ∧
    (m.get? row col).isSome = true ∧
    m.get? row col = m.get? (m.index row col / m.cols) (m.index row col % m.cols) ∧
    m.index row col % m.cols < m.cols := by
  refine ⟨?_, ?_, ?_, ?_, Nat.mod_lt _ hc⟩
  · intro r c
    simp [Matrix.get?, List.get?_eq_none]
  · intro r c
    simp only [Matrix.set?]
    by_cases h : m.index r c < m.values.length <;> simp [h] <;> omega
  · rw [Option.isSome_iff_ne_none]
    intro h
    rw [Matrix.get?, List.get?_eq_none] at h
    omega
  · show m.values.get? _ = m.values.get? _
    congr 1
    conv_rhs => rw [Matrix.index]
    rw [Nat.mul_comm]
    exact (Nat.div_add_mod _ _).symm

/-- Witness for C5 at a concrete 4×4 matrix and the out-of-range access
`(0, 5)`. -/
theorem c5_flat_index_bounds_witness :
    (Matrix.index (Matrix.from_values 4 4
        [1, 2, 3, 4, 5, 6, 7, 8, 9, 10, 11, 12, 13, 14, 15, 16]) 0 5 <
      (Matrix.from_values 4 4
        [1, 2, 3, 4, 5, 6, 7, 8, 9, 10, 11, 12, 13, 14, 15, 16]).values.length) ∧
    ((Matrix.from_values 4 4
        [1, 2, 3, 4, 5, 6, 7, 8, 9, 10, 11, 12, 13, 14, 15, 16]).get? 0 5).isSome = true := by
  have hlen : Matrix.index (Matrix.from_values 4 4
      [1, 2, 3, 4, 5, 6, 7, 8, 9, 10, 11, 12, 13, 14, 15, 16]) 0 5 <
      (Matrix.from_values 4 4
        [1, 2, 3, 4, 5, 6, 7, 8, 9, 10, 11, 12, 13, 14, 15, 16]).values.length := by
    decide
  exact ⟨hlen,
    (c5_flat_index_bounds (Matrix.from_values 4 4
      [1, 2, 3, 4, 5, 6, 7, 8, 9, 10, 11, 12, 13, 14, 15, 16]) 0 5 99 hlen
      (by decide)).2.2.1⟩

/-- C9 counterexample: negating the tuple of the point (1, 2, 3) — negation
being one of the kernel's listed operations — yields `w = −1`, which is not
within epsilon of either 0 or 1. -/
theorem c9_counterexample :
    approx_equal (Tuple.neg (Point.new 1 2 3).toTuple).w 1 = false ∧
    approx_equal (Tuple.neg (Point.new 1 2 3).toTuple).w 0 = false := by
  constructor <;> with_unfolding_all rfl

/-- C9 amended: the `w ∈ {0, 1}` flag discipline holds for construction,
point+vector, vector+vector, point−point, point−vector, vector scaling,
matrix transformation of vectors (which forces `w = 0`), and matrix
transformation of points by matrices whose last row is `(0, 0, 0, 1)`; it
is violated by tuple negation and scalar multiplication/division of point
tuples (see the counterexample), so it is not an invariant of *every*
operation. -/
theorem c9_w_flag_typed_ops (x y z s : ℚ) (t u : Tuple) (M : Matrix) (p : Point)
    (v : Vector) :
    (Point.new x y z).toTuple.w = 1 ∧
    (Vector.new x y z).toTuple.w = 0 ∧
    (t.w = 1 → u.w = 0 → (t.add u).w = 1) ∧
    (t.w = 0 → u.w = 0 → (t.add u).w = 0) ∧
    (t.w = 1 → u.w = 1 → (t.sub u).w = 0) ∧
    (t.w = 1 → u.w = 0 → (t.sub u).w = 1) ∧
    (v.toTuple.w = 0 → (v.mulScalar s).toTuple.w = 0) ∧
    (M.mulVector v).toTuple.w = 0 ∧
    (M.cols = 4 → M.getD 3 0 = 0 → M.getD 3 1 = 0 → M.getD 3 2 = 0 → M.getD 3 3 = 1 →
      p.toTuple.w = 1 → (M.mulPoint p).toTuple.w = 1) := by
  refine ⟨rfl, rfl, ?_, ?_, ?_, ?_, ?_, rfl, ?_⟩
  · intro h1 h2; simp [Tuple.add, h1, h2]
  · intro h1 h2; simp [Tuple.add, h1, h2]
  · intro h1 h2; simp [Tuple.sub, h1, h2]
  · intro h1 h2; simp [Tuple.sub, h1, h2]
  · intro h1; simp [Vector.mulScalar, Tuple.mulScalar, h1]
  · intro h4 h0 h1 h2 h3 hw
    show (Matrix.mulTuple M p.toTuple).w = 1
    rw [Matrix.mulTuple]
    simp only [h4, List.range_succ, List.range_zero, List.nil_append, List.cons_append,
      List.map_append, List.map_cons, List.map_nil, List.sum_cons, List.sum_append,
      List.sum_nil, List.getD]
    simp [Tuple.new, Tuple.get, h0, h1, h2, h3, hw]

/-- Witness for C9: typed operations on concrete points and vectors, and a
translation matrix applied to a point. -/
theorem c9_w_flag_typed_ops_witness :
    ((Point.new 1 2 3).toTuple.add (Vector.new 4 5 6).toTuple).w = 1 ∧
    ((Point.new 1 2 3).toTuple.sub (Point.new 4 5 6).toTuple).w = 0 ∧
    ((Matrix.translation 5 (-3) 2).mulPoint (Point.new 1 2 3)).toTuple.w = 1 := by
  have h := c9_w_flag_typed_ops 1 2 3 5 (Point.new 1 2 3).toTuple (Vector.new 4 5 6).toTuple
    (Matrix.translation 5 (-3) 2) (Point.new 1 2 3) (Vector.new 4 5 6)
  refine ⟨h.2.2.1 rfl rfl, ?_, ?_⟩
  · have h2 := c9_w_flag_typed_ops 1 2 3 5 (Point.new 1 2 3).toTuple (Point.new 4 5 6).toTuple
      (Matrix.translation 5 (-3) 2) (Point.new 1 2 3) (Vector.new 4 5 6)
    exact h2.2.2.2.2.1 rfl rfl
  · exact h.2.2.2.2.2.2.2.2 (by with_unfolding_all rfl) (by with_unfolding_all rfl)
      (by with_unfolding_all rfl) (by with_unfolding_all rfl) (by with_unfolding_all rfl) rfl

/-- C10: for vectors whose `w` components are 0 — as `Vector::new`
guarantees — `Vector::dot` coincides with the pure 3-D dot product: the
trailing `self.w + other.w` term contributes exactly 0. -/
theorem c10_dot_pure_3d (a b : Vector) (ha : a.toTuple.w = 0) (hb : b.toTuple.w = 0) :
    a.dot b =
      a.toTuple.x * b.toTuple.x + a.toTuple.y * b.toTuple.y +
        a.toTuple.z * b.toTuple.z ∧
    (∀ x y z : ℚ, (Vector.new x y z).toTuple.w = 0) := by
  refine ⟨?_, fun x y z => rfl⟩
  rw [Vector.dot, ha, hb]
  ring

/-- Witness for C10 at the vectors (1, 2, 3) and (2, 3, 4). -/
theorem c10_dot_pure_3d_witness :
    (Vector.new 1 2 3).dot (Vector.new 2 3 4) =
      (Vector.new 1 2 3).toTuple.x * (Vector.new 2 3 4).toTuple.x +
        (Vector.new 1 2 3).toTuple.y * (Vector.new 2 3 4).toTuple.y +
        (Vector.new 1 2 3).toTuple.z * (Vector.new 2 3 4).toTuple.z :=
  (c10_dot_pure_3d (Vector.new 1 2 3) (Vector.new 2 3 4) rfl rfl).1


/-- Adding black (the zero color) on the right is the identity of the
embedded `Color` addition. -/
theorem color_add_black (c : Color) : c.add (Color.new 0 0 0) = c := by
  cases c
  simp [Color.add, Color.new]

set_option maxRecDepth 8192 in
/-- C8: whenever `light_dot_normal < 0` the diffuse and specular
contributions are black, so `lighting` returns the ambient term alone; and
the default-material example — surface point at the origin, eye and normal
`(0, 0, −1)`, point light at `(0, 0, −10)` with intensity `(1, 1, 1)` —
evaluates to `(1.9, 1.9, 1.9)`. -/
theorem c8_lighting_phong (sqrtFn : ℚ → ℚ) (powFn : ℚ → ℚ → ℚ) (m : Material)
    (light : PointLight) (position : Point) (eyev normalv : Vector)
    (hn : ((light.position.subPoint position).normalize sqrtFn).dot normalv < 0) :
    Material.lighting sqrtFn powFn m light position eyev normalv =
      (m.color.mulColor light.intensity).mulScalar m.ambient ∧
    Material.lighting Rat.sqrt powQ Material.new
      ⟨Point.new 0 0 (-10), Color.new 1 1 1⟩ (Point.new 0 0 0)
      (Vector.new 0 0 (-1)) (Vector.new 0 0 (-1)) =
      Color.new (19/10) (19/10) (19/10) := by
  constructor
  · dsimp only [Material.lighting]
    rw [if_pos hn]
    rw [color_add_black, color_add_black]
  · with_unfolding_all rfl

/-- Witness for C8 with the light behind the surface (light at `(0, 0, 10)`,
normal `(0, 0, −1)`): `light_dot_normal = −1 < 0` and the result is the
ambient term alone — `(0.1, 0.1, 0.1)` for the default material, matching
the repository's own test. -/
theorem c8_lighting_phong_witness :
    Material.lighting Rat.sqrt powQ Material.new
        ⟨Point.new 0 0 10, Color.new 1 1 1⟩ (Point.new 0 0 0)
        (Vector.new 0 0 (-1)) (Vector.new 0 0 (-1)) =
      (Material.new.color.mulColor (Color.new 1 1 1)).mulScalar Material.new.ambient :=
  (c8_lighting_phong Rat.sqrt powQ Material.new ⟨Point.new 0 0 10, Color.new 1 1 1⟩
    (Point.new 0 0 0) (Vector.new 0 0 (-1)) (Vector.new 0 0 (-1))
    (by
      rw [show (((⟨Point.new 0 0 10, Color.new 1 1 1⟩ : PointLight).position.subPoint
          (Point.new 0 0 0)).normalize Rat.sqrt).dot (Vector.new 0 0 (-1)) = (-1 : ℚ) from by
        with_unfolding_all rfl]
      norm_num)).1

/-- C3: for a sphere whose transformation is invertible, `intersect`
transforms the ray into object space and emits no roots exactly when the
object-space discriminant is negative, and otherwise exactly the two roots
`(−b ∓ √discriminant) / 2a` in that order, the lower root first; the ray
from `(0, 0, −5)` with direction `(0, 0, 1)` against an untransformed unit
sphere yields `t = 4` and `t = 6`. -/
theorem c3_sphere_intersect_roots (sqrtFn : ℚ → ℚ) (s : Sphere) (ray : Ray) (inv : Matrix)
    (hinv : s.transformation.inverse = some inv)
    (hs : 0 ≤ sqrtFn (sphereDiscriminant (ray.transform inv))) :
    s.intersect sqrtFn ray = some (sphereRoots sqrtFn (ray.transform inv)) ∧
    (sphereRoots sqrtFn (ray.transform inv) = [] ↔
      sphereDiscriminant (ray.transform inv) < 0) ∧
    (0 ≤ sphereDiscriminant (ray.transform inv) →
      sphereRoots sqrtFn (ray.transform inv) =
        [(-sphereB (ray.transform inv) - sqrtFn (sphereDiscriminant (ray.transform inv))) /
            (2 * sphereA (ray.transform inv)),
          (-sphereB (ray.transform inv) + sqrtFn (sphereDiscriminant (ray.transform inv))) /
            (2 * sphereA (ray.transform inv))] ∧
      (-sphereB (ray.transform inv) - sqrtFn (sphereDiscriminant (ray.transform inv))) /
          (2 * sphereA (ray.transform inv)) ≤
        (-sphereB (ray.transform inv) + sqrtFn (sphereDiscriminant (ray.transform inv))) /
          (2 * sphereA (ray.transform inv))) ∧
    Sphere.new.intersect Rat.sqrt ⟨Point.new 0 0 (-5), Vector.new 0 0 1⟩ = some [4, 6] := by
  refine ⟨?_, ?_, ?_, by with_unfolding_all rfl⟩
  · simp [Sphere.intersect, hinv]
  · constructor
    · intro h
      by_contra hge
      push_neg at hge
      rw [sphereRoots, if_pos hge] at h
      simp at h
    · intro h
      rw [sphereRoots, if_neg (not_le.mpr h)]
  · intro h
    refine ⟨by rw [sphereRoots, if_pos h], ?_⟩
    have hw : (ray.transform inv).direction.toTuple.w = 0 := by with_unfolding_all rfl
    have ha : 0 ≤ sphereA (ray.transform inv) := by
      rw [sphereA, Vector.dot, hw]
      nlinarith [mul_self_nonneg (ray.transform inv).direction.toTuple.x,
        mul_self_nonneg (ray.transform inv).direction.toTuple.y,
        mul_self_nonneg (ray.transform inv).direction.toTuple.z]
    rcases eq_or_lt_of_le ha with h0 | hpos
    · rw [← h0]
      norm_num
    · rw [div_le_div_iff_of_pos_right (by positivity)]
      linarith

/-- Witness for C3 at the untransformed unit sphere and the ray from
`(0, 0, −5)` towards `(0, 0, 1)`. -/
theorem c3_sphere_intersect_roots_witness :
    Sphere.new.intersect Rat.sqrt ⟨Point.new 0 0 (-5), Vector.new 0 0 1⟩ = some [4, 6] :=
  (c3_sphere_intersect_roots Rat.sqrt Sphere.new ⟨Point.new 0 0 (-5), Vector.new 0 0 1⟩
    Matrix.identity_matrix (by with_unfolding_all rfl)
    (by
      rw [show Rat.sqrt (sphereDiscriminant
          ((⟨Point.new 0 0 (-5), Vector.new 0 0 1⟩ : Ray).transform
            Matrix.identity_matrix)) = (2 : ℚ) from by with_unfolding_all rfl]
      norm_num)).2.2.2

/-- C7: for a sphere with an invertible transformation, `normal_at` returns
exactly the spec-side computation (inverse transform, subtract the
object-space origin, inverse-transpose with `w` zeroed, normalize); the
returned normal has magnitude 1 whenever the square-root model is exact on
the relevant radicands; and the untransformed sphere at object-space point
`(1, 0, 0)` has normal `(1, 0, 0)`. -/
theorem c7_normal_at_inverse_transpose (sqrtFn : ℚ → ℚ) (s : Sphere) (p : Point)
    (inv : Matrix) (hinv : s.transformation.inverse = some inv)
    (hsq : sqrtFn (sumSq (normalPre inv p)) * sqrtFn (sumSq (normalPre inv p)) =
      sumSq (normalPre inv p))
    (hne : sumSq (normalPre inv p) ≠ 0)
    (h1 : sqrtFn 1 = 1) :
    s.normal_at sqrtFn p = some ((normalPre inv p).normalize sqrtFn) ∧
    (normalPre inv p).normalize sqrtFn = normalAtSpec sqrtFn inv p ∧
    Vector.magnitude sqrtFn ((normalPre inv p).normalize sqrtFn) = 1 ∧
    Sphere.new.normal_at Rat.sqrt (Point.new 1 0 0) = some (Vector.new 1 0 0) := by
  refine ⟨by simp [Sphere.normal_at, hinv, normalPre], ?_, ?_,
    by with_unfolding_all rfl⟩
  · have hv : (inv.mulPoint p).subtract_origin =
        (⟨{ ((inv.mulPoint p).subPoint (Point.new 0 0 0)).toTuple with w := 0 }⟩ : Vector) := by
      simp [Point.subtract_origin, Point.subPoint, Tuple.sub, Point.new, Tuple.new]
    dsimp only [normalAtSpec, normalPre]
    rw [hv]
  · have hm : Vector.magnitude sqrtFn (normalPre inv p) = sqrtFn (sumSq (normalPre inv p)) :=
      rfl
    have hmne : sqrtFn (sumSq (normalPre inv p)) ≠ 0 := by
      intro h
      exact hne (by rw [← hsq, h, mul_zero])
    have hw : (normalPre inv p).toTuple.w = 0 := by with_unfolding_all rfl
    rw [Vector.normalize, hm, Vector.magnitude]
    have harg :
        (normalPre inv p).toTuple.x / sqrtFn (sumSq (normalPre inv p)) *
            ((normalPre inv p).toTuple.x / sqrtFn (sumSq (normalPre inv p))) +
          (normalPre inv p).toTuple.y / sqrtFn (sumSq (normalPre inv p)) *
            ((normalPre inv p).toTuple.y / sqrtFn (sumSq (normalPre inv p))) +
          (normalPre inv p).toTuple.z / sqrtFn (sumSq (normalPre inv p)) *
            ((normalPre inv p).toTuple.z / sqrtFn (sumSq (normalPre inv p))) +
          (0 : ℚ) * 0 = 1 := by
      have hS : sumSq (normalPre inv p) =
          (normalPre inv p).toTuple.x * (normalPre inv p).toTuple.x +
            (normalPre inv p).toTuple.y * (normalPre inv p).toTuple.y +
            (normalPre inv p).toTuple.z * (normalPre inv p).toTuple.z := by
        rw [sumSq, hw]
        ring
      calc (normalPre inv p).toTuple.x / sqrtFn (sumSq (normalPre inv p)) *
            ((normalPre inv p).toTuple.x / sqrtFn (sumSq (normalPre inv p))) +
          (normalPre inv p).toTuple.y / sqrtFn (sumSq (normalPre inv p)) *
            ((normalPre inv p).toTuple.y / sqrtFn (sumSq (normalPre inv p))) +
          (normalPre inv p).toTuple.z / sqrtFn (sumSq (normalPre inv p)) *
            ((normalPre inv p).toTuple.z / sqrtFn (sumSq (normalPre inv p))) +
          (0 : ℚ) * 0 =
          sumSq (normalPre inv p) /
            (sqrtFn (sumSq (normalPre inv p)) * sqrtFn (sumSq (normalPre inv p))) := by
            rw [hS]; ring
        _ = sumSq (normalPre inv p) / sumSq (normalPre inv p) := by rw [hsq]
        _ = 1 := div_self hne
    rw [show (Vector.new
        ((normalPre inv p).toTuple.x / sqrtFn (sumSq (normalPre inv p)))
        ((normalPre inv p).toTuple.y / sqrtFn (sumSq (normalPre inv p)))
        ((normalPre inv p).toTuple.z / sqrtFn (sumSq (normalPre inv p)))).toTuple =
      Tuple.new ((normalPre inv p).toTuple.x / sqrtFn (sumSq (normalPre inv p)))
        ((normalPre inv p).toTuple.y / sqrtFn (sumSq (normalPre inv p)))
        ((normalPre inv p).toTuple.z / sqrtFn (sumSq (normalPre inv p))) 0 from rfl]
    dsimp only [Tuple.new]
    rw [harg, h1]

/-- Witness for C7 at the untransformed sphere and the point `(1, 0, 0)`. -/
theorem c7_normal_at_inverse_transpose_witness :
    Sphere.new.normal_at Rat.sqrt (Point.new 1 0 0) = some (Vector.new 1 0 0) ∧
    Vector.magnitude Rat.sqrt
      ((normalPre Matrix.identity_matrix (Point.new 1 0 0)).normalize Rat.sqrt) = 1 := by
  have h := c7_normal_at_inverse_transpose Rat.sqrt Sphere.new (Point.new 1 0 0)
    Matrix.identity_matrix (by with_unfolding_all rfl)
    (by with_unfolding_all rfl)
    (by
      rw [show sumSq (normalPre Matrix.identity_matrix (Point.new 1 0 0)) = (1 : ℚ) from by
        with_unfolding_all rfl]
      norm_num)
    (by with_unfolding_all rfl)
  exact ⟨h.2.2.2, h.2.2.1⟩

end RT
